import Mathlib

/-!
# Verification of the tsetmc-pusher core

A shallow embedding of the repository's three source modules —
`tsetmc_pusher/repository.py`, `tsetmc_pusher/websocket.py` and
`tsetmc_pusher/client.py` — together with theorems settling the frozen
claims about them.

Conventions of the embedding:

* Python objects mutated in place become explicit state passed and
  returned; a method on `MarketRealtimeData` becomes a function from the
  instrument list (the `__instruments` field) to a new instrument list.
* Python `datetime` values are abstracted to a pair of opaque `Nat`
  components, a date and a time-of-day; `datetime.combine(d, t)` is pairing
  and `.time()` is the second projection, which is all the source uses.
* The repository never calls the pusher callbacks that the websocket
  installs on it (`pusher_trade_data` / `pusher_orderbook_data` /
  `pusher_clienttype_data`); to make that observable, each repository
  mutation entry point also returns the list of pusher invocations its
  body performs.  The source bodies perform none, so the list is `[]` by
  construction.
* Python `set` objects become `Finset Nat` (connections are numbered);
  `set.add` is `insert` and the `remove`-inside-`try/except KeyError`
  idiom is `Finset.erase`, identical on both member and non-member.
* Python `str.split(sep)` for the one-character separators used by the
  source (`"."` and `","`) is embedded as a structural char-level split,
  `splitOnChar`, with the same semantics including empty fragments.
-/

namespace TsetmcPusher

/-! ## Domain records (tse_utils data shapes)

The spec treats the instrument domain model library as given data shapes
(identification, candle, order-book row, client-type, price limits) and
only defines how this system mutates, diffs and serializes them; the
structures below transcribe exactly the fields the source reads and
writes. -/

/-- A `datetime` value: an opaque date component paired with an opaque
time-of-day component.  `datetime.combine(today, t)` is `⟨today, t⟩` and
`.time()` is `.time`. -/
structure DateTimeM where
  date : Nat
  time : Nat
deriving DecidableEq, Repr

/-- One side of a client-type quantity: order count and volume. -/
structure CTQuantity where
  num : Int
  volume : Int
deriving DecidableEq, Repr

/-- Buy and sell quantities for one investor class. -/
structure CTSide where
  buy : CTQuantity
  sell : CTQuantity
deriving DecidableEq, Repr

/-- Client-type breakdown: legal and natural investor classes, each with
buy/sell count and volume — the eight fields copied by
`update_instrument_client_type`. -/
structure ClientType where
  legal : CTSide
  natural : CTSide
deriving DecidableEq, Repr

/-- One side of an order-book row: order count, volume, price — the three
fields per side copied by `update_instrument_orderbook_row`. -/
structure OBQuantity where
  num : Int
  volume : Int
  price : Int
deriving DecidableEq, Repr

/-- A depth row with a demand (bid) and a supply (ask) side. -/
structure OrderBookRow where
  demand : OBQuantity
  supply : OBQuantity
deriving DecidableEq, Repr

/-- An instrument's order book: its ordered sequence of depth rows. -/
structure OrderBook where
  rows : List OrderBookRow
deriving DecidableEq, Repr

/-- The intraday trade candle with the ten fields written by
`update_instrument_trade_data`. -/
structure TradeCandle where
  previous_price : Int
  close_price : Int
  last_price : Int
  open_price : Int
  max_price : Int
  min_price : Int
  trade_volume : Int
  trade_value : Int
  trade_num : Int
  last_trade_datetime : Option DateTimeM
deriving DecidableEq, Repr

/-- Price limits, read by `instrument_data_thresholds`. -/
structure OrderLimitations where
  max_price : Int
  min_price : Int
deriving DecidableEq, Repr

/-- Instrument identification: the four fields the repository copies when
creating a fresh instrument. -/
structure InstrumentIdentification where
  isin : String
  tsetmc_code : String
  ticker : String
  name_persian : String
deriving DecidableEq, Repr

/-- An instrument record: identification plus the four realtime blocks. -/
structure Instrument where
  identification : InstrumentIdentification
  intraday_trade_candle : TradeCandle
  orderbook : OrderBook
  client_type : ClientType
  order_limitations : OrderLimitations
deriving DecidableEq, Repr

/-- A market-watch trade record: identification, candle fields, the
last-trade time-of-day, and an order-book snapshot — the fields
`apply_new_trade_data` reads from `mwi`. -/
structure MarketWatchTradeData where
  identification : InstrumentIdentification
  intraday_trade_candle : TradeCandle
  last_trade_time : Nat
  orderbook : OrderBook
deriving DecidableEq, Repr

/-- A market-watch client-type record: the tsetmc code it is keyed by and
the client-type payload (`mwi.tsetmc_code`, `mwi.client_type`). -/
structure MarketWatchClientTypeData where
  tsetmc_code : String
  client_type : ClientType
deriving DecidableEq, Repr

/-- An invocation of one of the pusher callbacks the websocket installs on
the repository (`set_market_realtime_data_pushers`).  The repository
source contains no such invocation, so every mutation entry point below
returns an empty trace. -/
inductive PusherEvent where
  | trade (instruments : List Instrument)
  | orderbook (instruments : List (Instrument × List Nat))
  | clienttype (instruments : List Instrument)
deriving DecidableEq, Repr

/-! ## `repository.py` — `MarketRealtimeData`

The class state is its `__instruments : list[Instrument]`; each method
maps the old list to the new list (plus the — empty — pusher trace).
The `__instruments_lock` serializes the methods and has no effect on
their sequential meaning. -/

/-- Source `MarketRealtimeData.update_instrument_client_type`: copies the eight
client-type fields from `mwi_ct` onto `instrument_ct`, returning the
mutated record. -/
def update_instrument_client_type (instrument_ct mwi_ct : ClientType) :
    ClientType :=
  { legal :=
      { buy := { num := mwi_ct.legal.buy.num, volume := mwi_ct.legal.buy.volume }
        sell := { num := mwi_ct.legal.sell.num, volume := mwi_ct.legal.sell.volume } }
    natural :=
      { buy := { num := mwi_ct.natural.buy.num, volume := mwi_ct.natural.buy.volume }
        sell := { num := mwi_ct.natural.sell.num, volume := mwi_ct.natural.sell.volume } } }

/-- The body of the `for mwi in client_type` loop of
`MarketRealtimeData.apply_new_client_type` for one record: find the first
instrument whose `identification.tsetmc_code` equals `mwi.tsetmc_code`
(the `next(..., None)` lookup) and, when found and its client type
differs, overwrite it in place via `update_instrument_client_type`.

The source's guard is `instrument.client_type != mwi`; the inequality is
evaluated inside the external tse_utils library, which the spec treats as
a given data shape.  Modelled from the spec: the comparison is
"field-by-field against stored" over the eight client-type fields, i.e.
structural inequality between the stored `ClientType` and the incoming
record's client-type payload. -/
def applyOneClientType : List Instrument → MarketWatchClientTypeData →
    List Instrument
  | [], _ => []
  | x :: xs, mwi =>
    if x.identification.tsetmc_code == mwi.tsetmc_code then
      (if x.client_type ≠ mwi.client_type then
        { x with client_type :=
            update_instrument_client_type x.client_type mwi.client_type }
      else x) :: xs
    else x :: applyOneClientType xs mwi

/-- Source `MarketRealtimeData.apply_new_client_type`: applies each market-watch
client-type record in order.  The second component is the trace of pusher
invocations performed by the body: the source performs none. -/
def apply_new_client_type (instruments : List Instrument)
    (client_type : List MarketWatchClientTypeData) :
    List Instrument × List PusherEvent :=
  (client_type.foldl applyOneClientType instruments, [])

/-- Source `MarketRealtimeData.update_instrument_orderbook_row`: copies the six
row fields from `mwi_obr` onto `instrument_obr`. -/
def update_instrument_orderbook_row (instrument_obr mwi_obr : OrderBookRow) :
    OrderBookRow :=
  { demand :=
      { num := mwi_obr.demand.num, volume := mwi_obr.demand.volume
        price := mwi_obr.demand.price }
    supply :=
      { num := mwi_obr.supply.num, volume := mwi_obr.supply.volume
        price := mwi_obr.supply.price } }

/-- Source `MarketRealtimeData.update_instrument_trade_data`: overwrites all ten
candle fields from `mwi`, setting `last_trade_datetime` to
`datetime.combine(datetime.today(), mwi.last_trade_time)`; the current
date is the explicit `today` parameter. -/
def update_instrument_trade_data (today : Nat) (instrument : Instrument)
    (mwi : MarketWatchTradeData) : Instrument :=
  { instrument with intraday_trade_candle :=
      { previous_price := mwi.intraday_trade_candle.previous_price
        close_price := mwi.intraday_trade_candle.close_price
        last_price := mwi.intraday_trade_candle.last_price
        open_price := mwi.intraday_trade_candle.open_price
        max_price := mwi.intraday_trade_candle.max_price
        min_price := mwi.intraday_trade_candle.min_price
        trade_volume := mwi.intraday_trade_candle.trade_volume
        trade_value := mwi.intraday_trade_candle.trade_value
        trade_num := mwi.intraday_trade_candle.trade_num
        last_trade_datetime := some ⟨today, mwi.last_trade_time⟩ } }

/-- The duplicate-update guard of `apply_new_trade_data`:
`instrument.intraday_trade_candle.last_trade_datetime and
 instrument.intraday_trade_candle.last_trade_datetime.time()
   == mwi.last_trade_time`
(a stored `datetime` is truthy exactly when it is not `None`). -/
def duplicateTradeTime (c : TradeCandle) (mwi : MarketWatchTradeData) : Bool :=
  match c.last_trade_datetime with
  | some dt => dt.time == mwi.last_trade_time
  | none => false

/-- The `for rn, row in enumerate(mwi.orderbook.rows)` loop of
`apply_new_trade_data`: each incoming row is compared with the stored row
of the same rank and, when different, copied over it via
`update_instrument_orderbook_row`.  The source indexes
`instrument.orderbook.rows[rn]` directly (it would raise `IndexError`
were the stored book shorter than the incoming one; the spec fixes both
to the same fixed length). -/
def applyOrderbookRows : List OrderBookRow → List OrderBookRow →
    List OrderBookRow
  | stored, [] => stored
  | s :: ss, m :: ms =>
    (if m ≠ s then update_instrument_orderbook_row s m else s)
      :: applyOrderbookRows ss ms
  | [], _ :: _ => []

/-- The per-instrument tail of the `for mwi in trade_data` loop body:
skip the candle overwrite when the stored last-trade time-of-day already
equals the incoming one, then run the order-book row loop. -/
def processTradeInstrument (today : Nat) (mwi : MarketWatchTradeData)
    (instrument : Instrument) : Instrument :=
  let inst1 :=
    if duplicateTradeTime instrument.intraday_trade_candle mwi then instrument
    else update_instrument_trade_data today instrument mwi
  { inst1 with orderbook := ⟨applyOrderbookRows inst1.orderbook.rows mwi.orderbook.rows⟩ }

/-- Source `Instrument(InstrumentIdentification(...))`: the fresh record appended
when no stored instrument has the incoming isin.  The external library's
defaults are modelled per the spec ("creates an instrument record with
empty order book/client-type/limits"): zero fields, no last trade, and an
order book of `orderbookDepth` zero rows. -/
def zeroRow : OrderBookRow := ⟨⟨0, 0, 0⟩, ⟨0, 0, 0⟩⟩

/-- The fixed depth of a fresh instrument's order book. -/
def orderbookDepth : Nat := 5

/-- The zero-valued candle of a fresh instrument. -/
def emptyCandle : TradeCandle :=
  ⟨0, 0, 0, 0, 0, 0, 0, 0, 0, none⟩

/-- A fresh instrument record for the given identification. -/
def newInstrument (ident : InstrumentIdentification) : Instrument :=
  { identification := ident
    intraday_trade_candle := emptyCandle
    orderbook := ⟨List.replicate orderbookDepth zeroRow⟩
    client_type := ⟨⟨⟨0, 0⟩, ⟨0, 0⟩⟩, ⟨⟨0, 0⟩, ⟨0, 0⟩⟩⟩
    order_limitations := ⟨0, 0⟩ }

/-- One iteration of the `for mwi in trade_data` loop of
`MarketRealtimeData.apply_new_trade_data`: the `next(..., None)` lookup
takes the first instrument whose isin matches and it is processed in
place; when none matches, a fresh instrument is appended at the end of
the list and processed there. -/
def applyOneTrade (today : Nat) (mwi : MarketWatchTradeData) :
    List Instrument → List Instrument
  | [] =>
    [processTradeInstrument today mwi
      (newInstrument
        ⟨mwi.identification.isin, mwi.identification.tsetmc_code,
          mwi.identification.ticker, mwi.identification.name_persian⟩)]
  | x :: xs =>
    if x.identification.isin == mwi.identification.isin then
      processTradeInstrument today mwi x :: xs
    else x :: applyOneTrade today mwi xs

/-- Source `MarketRealtimeData.apply_new_trade_data`: applies each market-watch
trade record in order.  The second component is the trace of pusher
invocations performed by the body: the source performs none. -/
def apply_new_trade_data (today : Nat) (instruments : List Instrument)
    (trade_data : List MarketWatchTradeData) :
    List Instrument × List PusherEvent :=
  (trade_data.foldl (fun acc mwi => applyOneTrade today mwi acc) instruments, [])

/-! ## `websocket.py` — channels, subscriptions and the message handler

Downstream connections are numbered (`Nat`); a Python `set` of
connections is a `Finset Nat`. -/

/-- Source `InstrumentChannel`: an isin together with its three per-channel
subscriber sets. -/
structure InstrumentChannel where
  isin : String
  trade_subscribers : Finset Nat
  orderbook_subscribers : Finset Nat
  clienttype_subscribers : Finset Nat
deriving DecidableEq

/-- Source `InstrumentChannel(isin)`: fresh channel with three empty sets. -/
def newChannel (isin : String) : InstrumentChannel := ⟨isin, ∅, ∅, ∅⟩

/-- Source `subscribe_trade`: `instrument_channel.trade_subscribers.add(client)`. -/
def subscribe_trade (client : Nat) (instrument_channel : InstrumentChannel) :
    InstrumentChannel :=
  { instrument_channel with
      trade_subscribers := insert client instrument_channel.trade_subscribers }

/-- Source `subscribe_orderbook`: adds the client to the orderbook set. -/
def subscribe_orderbook (client : Nat) (instrument_channel : InstrumentChannel) :
    InstrumentChannel :=
  { instrument_channel with
      orderbook_subscribers := insert client instrument_channel.orderbook_subscribers }

/-- Source `subscribe_clienttype`: adds the client to the clienttype set. -/
def subscribe_clienttype (client : Nat) (instrument_channel : InstrumentChannel) :
    InstrumentChannel :=
  { instrument_channel with
      clienttype_subscribers := insert client instrument_channel.clienttype_subscribers }

/-- Source `subscribe_all`: subscribes the client to the three channels. -/
def subscribe_all (client : Nat) (instrument_channel : InstrumentChannel) :
    InstrumentChannel :=
  subscribe_clienttype client (subscribe_orderbook client (subscribe_trade client instrument_channel))

/-- Source `unsubscribe_trade`: `remove` inside `try/except KeyError: pass`,
i.e. erase the client if present and do nothing otherwise. -/
def unsubscribe_trade (client : Nat) (instrument_channel : InstrumentChannel) :
    InstrumentChannel :=
  { instrument_channel with
      trade_subscribers := instrument_channel.trade_subscribers.erase client }

/-- Source `unsubscribe_orderbook`: erase from the orderbook set. -/
def unsubscribe_orderbook (client : Nat) (instrument_channel : InstrumentChannel) :
    InstrumentChannel :=
  { instrument_channel with
      orderbook_subscribers := instrument_channel.orderbook_subscribers.erase client }

/-- Source `unsubscribe_clienttype`: erase from the clienttype set. -/
def unsubscribe_clienttype (client : Nat) (instrument_channel : InstrumentChannel) :
    InstrumentChannel :=
  { instrument_channel with
      clienttype_subscribers := instrument_channel.clienttype_subscribers.erase client }

/-- Source `unsubscribe_all`: unsubscribes the client from the three channels. -/
def unsubscribe_all (client : Nat) (instrument_channel : InstrumentChannel) :
    InstrumentChannel :=
  unsubscribe_clienttype client (unsubscribe_orderbook client (unsubscribe_trade client instrument_channel))

/-! ### Serialization (`instrument_data_*`)

The wire payloads are JSON objects whose values are arrays of numbers,
strings, or arrays of numbers; `JAtom`/`JField` transcribe exactly those
shapes. -/

/-- A scalar inside a serialized field array. -/
inductive JAtom where
  | num (n : Int)
  | str (s : String)
deriving DecidableEq, Repr

/-- The value of one channel key of a serialized instrument object:
either a flat field array or (for the order book) an array of row
arrays. -/
inductive JField where
  | flat (xs : List JAtom)
  | rows (xs : List (List JAtom))
deriving DecidableEq, Repr

/-- A serialized per-instrument object: channel name to field array. -/
abbrev JObjT := List (String × JField)

/-- The `ltd_display` string of `instrument_data_trade`.  The source
renders year/month/day hour:minute:second of the last-trade `datetime`;
dates and times are opaque components here, so the rendering is
abstracted to their `toString`s joined as the source joins its two
halves.  (The source assumes a last trade exists and would raise
otherwise; the `getD` default is never read on the paths the claims
exercise.) -/
def formatLtd (dt : DateTimeM) : String :=
  toString dt.date ++ " " ++ toString dt.time

/-- The `trade` entry built by `instrument_data_trade`. -/
def trade_field (instrument : Instrument) : String × JField :=
  let c := instrument.intraday_trade_candle
  ("trade", .flat
    [.num c.close_price, .num c.last_price,
     .str (formatLtd (c.last_trade_datetime.getD ⟨0, 0⟩)),
     .num c.max_price, .num c.min_price, .num c.open_price,
     .num c.previous_price, .num c.trade_num, .num c.trade_value,
     .num c.trade_volume])

/-- Source `instrument_data_trade`. -/
def instrument_data_trade (instrument : Instrument) : JObjT :=
  [trade_field instrument]

/-- One serialized order-book row:
`[rn, demand.num, demand.price, demand.volume, supply.num, supply.price,
supply.volume]`. -/
def orderbookRowJ (rn : Nat) (x : OrderBookRow) : List JAtom :=
  [.num (rn : Int), .num x.demand.num, .num x.demand.price, .num x.demand.volume,
   .num x.supply.num, .num x.supply.price, .num x.supply.volume]

/-- Source `instrument_data_orderbook_specific_rows`: serializes exactly the
rows whose rank is in `rows` (`if rn in rows`). -/
def instrument_data_orderbook_specific_rows (instrument : Instrument)
    (rows : List Nat) : JObjT :=
  [("orderbook", .rows
    (((instrument.orderbook.rows.enum).filter (fun p => rows.contains p.1)).map
      (fun p => orderbookRowJ p.1 p.2)))]

/-- The `orderbook` entry built by `instrument_data_orderbook` (all
rows). -/
def orderbook_field (instrument : Instrument) : String × JField :=
  ("orderbook", .rows
    ((instrument.orderbook.rows.enum).map (fun p => orderbookRowJ p.1 p.2)))

/-- Source `instrument_data_orderbook`. -/
def instrument_data_orderbook (instrument : Instrument) : JObjT :=
  [orderbook_field instrument]

/-- The `clienttype` entry built by `instrument_data_clienttype`: the
eight client-type fields in source order. -/
def clienttype_field (instrument : Instrument) : String × JField :=
  let ct := instrument.client_type
  ("clienttype", .flat
    [.num ct.legal.buy.num, .num ct.legal.buy.volume,
     .num ct.legal.sell.num, .num ct.legal.sell.volume,
     .num ct.natural.buy.num, .num ct.natural.buy.volume,
     .num ct.natural.sell.num, .num ct.natural.sell.volume])

/-- Source `instrument_data_clienttype`. -/
def instrument_data_clienttype (instrument : Instrument) : JObjT :=
  [clienttype_field instrument]

/-- The `thresholds` entry built by `instrument_data_thresholds`. -/
def thresholds_field (instrument : Instrument) : String × JField :=
  ("thresholds", .flat
    [.num instrument.order_limitations.max_price,
     .num instrument.order_limitations.min_price])

/-- Source `instrument_data_thresholds`. -/
def instrument_data_thresholds (instrument : Instrument) : JObjT :=
  [thresholds_field instrument]

/-- Source `instrument_data_all`: the `|` union of the four single-entry dicts;
their keys are distinct, so the union is their concatenation in source
order. -/
def instrument_data_all (instrument : Instrument) : JObjT :=
  [thresholds_field instrument, trade_field instrument,
   orderbook_field instrument, clienttype_field instrument]

/-! ### The connection-message handler -/

/-- Python `str.split(sep)` for a one-character separator, including its
empty fragments (`"1.trade.".split(".") == ['1','trade','']` and
`"".split(",") == ['']`). -/
def splitOnCharAux (c : Char) : List Char → List Char → List (List Char)
  | [], acc => [acc.reverse]
  | x :: xs, acc =>
    if x = c then acc.reverse :: splitOnCharAux c xs []
    else splitOnCharAux c xs (x :: acc)

/-- See `splitOnCharAux`. -/
def splitOnChar (c : Char) (s : String) : List String :=
  (splitOnCharAux c s.data []).map String.mk

/-- Source `acceptable_actions` of `handle_connection_message`. -/
def acceptable_actions : List String := ["0", "1"]

/-- Source `acceptable_channels` of `handle_connection_message`. -/
def acceptable_channels : List String := ["all", "trade", "orderbook", "clienttype"]

/-- Modelled from the spec: `MarketRealtimeData.get_instruments` is
called by the broker (`websocket.py` line 327) but absent from
`repository.py`; per spec §4.2 `snapshot(identity)` "returns a copy-safe
read of the current full instrument record, or a not-found signal if the
identity is unknown".  One lookup per requested isin, aligned with the
isin list. -/
def get_instruments (instruments : List Instrument) (isins : List String) :
    List (Option Instrument) :=
  isins.map fun isin =>
    instruments.find? (fun x => x.identification.isin == isin)

/-- Source `TsetmcWebsocket.get_channel_action_func`: the
`return_values[action][channel]` table, written as a decision chain over
the already-validated action and channel strings. -/
def get_channel_action_func (action chan : String) :
    Nat → InstrumentChannel → InstrumentChannel :=
  if action == "1" then
    if chan == "all" then subscribe_all
    else if chan == "trade" then subscribe_trade
    else if chan == "orderbook" then subscribe_orderbook
    else subscribe_clienttype
  else
    if chan == "all" then unsubscribe_all
    else if chan == "trade" then unsubscribe_trade
    else if chan == "orderbook" then unsubscribe_orderbook
    else unsubscribe_clienttype

/-- Source `TsetmcWebsocket.get_initial_data_func`: serializers for subscribe,
`lambda x: None` for unsubscribe. -/
def get_initial_data_func (action chan : String) :
    Instrument → Option JObjT :=
  if action == "1" then
    if chan == "all" then fun x => some (instrument_data_all x)
    else if chan == "trade" then fun x => some (instrument_data_trade x)
    else if chan == "orderbook" then fun x => some (instrument_data_orderbook x)
    else fun x => some (instrument_data_clienttype x)
  else fun _ => none

/-- Python `dict.__setitem__` on an insertion-ordered association list:
replace the value in place when the key exists, append otherwise. -/
def dictInsert (d : List (String × Option JObjT)) (k : String)
    (v : Option JObjT) : List (String × Option JObjT) :=
  if d.any (fun p => p.1 == k) then
    d.map (fun p => if p.1 == k then (k, v) else p)
  else d ++ [(k, v)]

/-- One iteration of the subscription loop: `channel = next((x for x in
self.__channels), None)` takes the FIRST stored channel whatever its
isin (the source generator has no filtering condition); only when the
channel list is empty is a fresh channel created for the current isin and
appended, and the action then mutates that channel in place. -/
def channelStep (client : Nat)
    (actionFunc : Nat → InstrumentChannel → InstrumentChannel)
    (isin : String) (channels : List InstrumentChannel) :
    List InstrumentChannel :=
  match channels with
  | [] => [actionFunc client (newChannel isin)]
  | c :: cs => actionFunc client c :: cs

/-- The `for counter, isin in enumerate(isins)` loop of
`handle_connection_message`, walking the isins zipped with
`instruments = get_instruments(isins)` (same length, indexed by
`counter`); `initial_data[isin] = initial_data_func(instruments[counter])`
runs only when the instrument lookup succeeded (a found instrument object
is truthy, `None` is falsy). -/
def handleLoop (client : Nat)
    (actionFunc : Nat → InstrumentChannel → InstrumentChannel)
    (initFunc : Instrument → Option JObjT) :
    List (String × Option Instrument) → List InstrumentChannel →
    List (String × Option JObjT) →
    List InstrumentChannel × List (String × Option JObjT)
  | [], channels, d => (channels, d)
  | (isin, oinst) :: rest, channels, d =>
    let channels' := channelStep client actionFunc isin channels
    let d' :=
      match oinst with
      | some inst => dictInsert d isin (initFunc inst)
      | none => d
    handleLoop client actionFunc initFunc rest channels' d'

/-- Source `TsetmcWebsocket.handle_connection_message`: validation, then the
subscription loop.  Returns the new channel list (the mutated
`self.__channels`) and the returned value: `none` for the `return None`
rejection paths, `some initial_data` otherwise.

The `fake_isin` guard transcribes
`fake_isin = next((x for x in isins if len(x) != 12), None)` followed by
`if fake_isin:` — Python truthiness, under which both `None` and the
empty string fail the guard, so a command whose first wrong-length
identity token is `""` is NOT rejected. -/
def handle_connection_message (repo : List Instrument)
    (channels : List InstrumentChannel) (client : Nat) (message : String) :
    List InstrumentChannel × Option (List (String × Option JObjT)) :=
  let message_parts := splitOnChar '.' message
  if message_parts.length ≠ 3 then (channels, none)
  else
    let action := message_parts.getD 0 ""
    let chan := message_parts.getD 1 ""
    if ¬ acceptable_actions.contains action then (channels, none)
    else if ¬ acceptable_channels.contains chan then (channels, none)
    else
      let isins := splitOnChar ',' (message_parts.getD 2 "")
      let fake_isin := isins.find? (fun x => x.length != 12)
      if fake_isin.getD "" ≠ "" then (channels, none)
      else
        let instruments := get_instruments repo isins
        let actionFunc := get_channel_action_func action chan
        let initFunc := get_initial_data_func action chan
        let st := handleLoop client actionFunc initFunc
          (isins.zip instruments) channels []
        (st.1, some st.2)

/-- The send guard of `TsetmcWebsocket.handle_connection`:
`if response: await client.send(json.dumps(response))` — a response frame
goes back to the issuing connection exactly when the handler's return
value is truthy, i.e. not `None` and not the empty dict. -/
def response_sent (r : Option (List (String × Option JObjT))) : Bool :=
  match r with
  | none => false
  | some d => ¬ d.isEmpty

/-! ## `client.py` — `TsetmcClient.process_message`

The client state is its `subscribed_instruments` list; an inbound frame
is the parsed JSON object, an ordered list of identity entries, each a
list of channel entries carrying an already-decoded payload. -/

/-- The decoded field array of one channel entry of an upstream frame:
the ten `trade` fields (`int(data[i])` plus the ISO timestamp parsed by
`datetime.fromisoformat`), the two `thresholds` fields, or an
undecoded payload for the channels the client does not decode. -/
inductive WireData where
  | thresholds (max_price min_price : Int)
  | trade (previous_price close_price last_price open_price max_price
      min_price : Int) (trade_volume trade_value trade_num : Int)
      (last_trade_datetime : DateTimeM)
  | undecoded
deriving DecidableEq, Repr

/-- Source `TsetmcClient.__message_thresholds`. -/
def message_thresholds (instrument : Instrument) (maxp minp : Int) :
    Instrument :=
  { instrument with order_limitations := { max_price := maxp, min_price := minp } }

/-- Source `TsetmcClient.__message_trade`: overwrites the ten candle fields from
the field array. -/
def message_trade (instrument : Instrument) (prev close last openp maxp
    minp tvol tval tnum : Int) (ltd : DateTimeM) : Instrument :=
  { instrument with intraday_trade_candle :=
      { previous_price := prev, close_price := close, last_price := last
        open_price := openp, max_price := maxp, min_price := minp
        trade_volume := tvol, trade_value := tval, trade_num := tnum
        last_trade_datetime := some ltd } }

/-- Modelled from the spec: `__message_orderbook` is dispatched to by
`process_message` but no such method exists in `client.py` and "no decode
rule is defined upstream; treat as unimplemented" (spec §4.1/§9) —
modelled as leaving the instrument unchanged. -/
def message_orderbook (instrument : Instrument) : Instrument :=
  instrument

/-- The `for channel, data in channels.items()` match of
`process_message`: `thresholds` and `trade` decode into the instrument,
`orderbook` dispatches to the (unimplemented) handler, `clienttype` is
`pass`, and any other channel name is logged and skipped (the payload
always matches its channel name on this protocol; a mismatch is
unreachable and leaves the instrument unchanged). -/
def processChannels (instrument : Instrument) :
    List (String × WireData) → Instrument
  | [] => instrument
  | (chan, d) :: rest =>
    let inst' :=
      if chan == "thresholds" then
        match d with
        | .thresholds maxp minp => message_thresholds instrument maxp minp
        | _ => instrument
      else if chan == "trade" then
        match d with
        | .trade prev close last openp maxp minp tvol tval tnum ltd =>
          message_trade instrument prev close last openp maxp minp tvol tval tnum ltd
        | _ => instrument
      else if chan == "orderbook" then message_orderbook instrument
      else if chan == "clienttype" then instrument
      else instrument
    processChannels inst' rest

/-- Replace the first instrument whose isin matches with its processed
form (the source mutates the found object in place). -/
def updateFirstInstrument (isin : String) (f : Instrument → Instrument) :
    List Instrument → List Instrument
  | [] => []
  | x :: xs =>
    if x.identification.isin == isin then f x :: xs
    else x :: updateFirstInstrument isin f xs

/-- Source `TsetmcClient.process_message`: for each identity entry of the frame,
`next(x for x in self.subscribed_instruments if x.identification.isin ==
isin)` — a bare `next` with NO default — locates the instrument; when no
subscribed instrument matches, the generator is exhausted and
`StopIteration` propagates out of `process_message`, abandoning the
remaining entries of the frame: this is the `.error` result, carrying the
offending isin.  Otherwise the found instrument is updated in place and
processing continues. -/
def process_message (subscribed : List Instrument) :
    List (String × List (String × WireData)) →
    Except String (List Instrument)
  | [] => .ok subscribed
  | (isin, chans) :: rest =>
    match subscribed.find? (fun x => x.identification.isin == isin) with
    | none => .error isin
    | some _ =>
      process_message
        (updateFirstInstrument isin (fun i => processChannels i chans) subscribed)
        rest

/-! ## Concrete fixtures used by the counterexample and witness theorems -/

/-- Identification fixture with isin `IRO1AAAA0001`. -/
def identA : InstrumentIdentification := ⟨"IRO1AAAA0001", "111", "AAAA", "A"⟩

/-- Identification fixture with isin `IRO1FOLD0001`. -/
def identF : InstrumentIdentification := ⟨"IRO1FOLD0001", "700", "FOLD", "F"⟩

/-- A market-watch trade record fixture for an unseen instrument. -/
def mwiNew : MarketWatchTradeData :=
  { identification := identA
    intraday_trade_candle := ⟨1, 2, 3, 4, 5, 0, 10, 20, 2, none⟩
    last_trade_time := 100
    orderbook := ⟨[⟨⟨1, 1, 1⟩, ⟨2, 2, 2⟩⟩]⟩ }

/-! ## Helper lemmas -/

/-- Processing a trade record never changes the instrument's
identification. -/
theorem processTradeInstrument_identification (today : Nat)
    (mwi : MarketWatchTradeData) (inst : Instrument) :
    (processTradeInstrument today mwi inst).identification
      = inst.identification := by
  unfold processTradeInstrument
  by_cases h : duplicateTradeTime inst.intraday_trade_candle mwi <;>
    simp [h, update_instrument_trade_data]

/-- Under the duplicate-time guard the candle is left untouched. -/
theorem processTradeInstrument_candle_dup (today : Nat)
    (mwi : MarketWatchTradeData) (inst : Instrument)
    (h : duplicateTradeTime inst.intraday_trade_candle mwi = true) :
    (processTradeInstrument today mwi inst).intraday_trade_candle
      = inst.intraday_trade_candle := by
  unfold processTradeInstrument
  simp [h]

/-- After a trade record is processed, the stored last-trade time-of-day
always equals the record's, so the same record is a duplicate. -/
theorem processTradeInstrument_dup_after (today : Nat)
    (mwi : MarketWatchTradeData) (inst : Instrument) :
    duplicateTradeTime (processTradeInstrument today mwi inst).intraday_trade_candle
      mwi = true := by
  by_cases h : duplicateTradeTime inst.intraday_trade_candle mwi
  · rw [processTradeInstrument_candle_dup _ _ _ h]
    exact h
  · have h' : duplicateTradeTime inst.intraday_trade_candle mwi = false := by
      simpa using h
    simp only [processTradeInstrument]
    rw [h']
    simp [update_instrument_trade_data, duplicateTradeTime]

/-- When the first instrument matching the record's isin satisfies the
duplicate-time guard, one application preserves every stored candle. -/
theorem applyOneTrade_candles_of_dup (today : Nat)
    (mwi : MarketWatchTradeData) :
    ∀ (insts : List Instrument) (inst : Instrument),
      insts.find? (fun x => x.identification.isin == mwi.identification.isin)
        = some inst →
      duplicateTradeTime inst.intraday_trade_candle mwi = true →
      (applyOneTrade today mwi insts).map (·.intraday_trade_candle)
        = insts.map (·.intraday_trade_candle) := by
  intro insts
  induction insts with
  | nil => intro inst h _; simp [List.find?] at h
  | cons x xs ih =>
    intro inst hfind hdup
    by_cases hx : (x.identification.isin == mwi.identification.isin) = true
    · have hxi : x = inst := by
        simp [List.find?_cons, hx] at hfind
        exact hfind
      subst hxi
      simp [applyOneTrade, hx,
        processTradeInstrument_candle_dup _ _ _ hdup]
    · have hx' : (x.identification.isin == mwi.identification.isin) = false := by
        simpa using hx
      simp only [List.find?_cons, hx'] at hfind
      simp [applyOneTrade, hx', ih inst hfind hdup]

/-- Applying the same trade record a second time preserves every candle
produced by the first application. -/
theorem applyOneTrade_twice_candles (today : Nat)
    (mwi : MarketWatchTradeData) :
    ∀ insts : List Instrument,
      (applyOneTrade today mwi (applyOneTrade today mwi insts)).map
          (·.intraday_trade_candle)
        = (applyOneTrade today mwi insts).map (·.intraday_trade_candle) := by
  intro insts
  induction insts with
  | nil =>
    have hid : ((processTradeInstrument today mwi
        (newInstrument ⟨mwi.identification.isin, mwi.identification.tsetmc_code,
          mwi.identification.ticker,
          mwi.identification.name_persian⟩)).identification.isin
          == mwi.identification.isin) = true := by
      rw [processTradeInstrument_identification]
      simp [newInstrument]
    simp [applyOneTrade, hid,
      processTradeInstrument_candle_dup _ _ _
        (processTradeInstrument_dup_after today mwi _)]
  | cons x xs ih =>
    by_cases hx : (x.identification.isin == mwi.identification.isin) = true
    · have hid : ((processTradeInstrument today mwi x).identification.isin
          == mwi.identification.isin) = true := by
        rw [processTradeInstrument_identification]; exact hx
      simp [applyOneTrade, hx, hid,
        processTradeInstrument_candle_dup _ _ _
          (processTradeInstrument_dup_after today mwi x)]
    · simp [applyOneTrade, hx, ih]

/-! ## Claim theorems -/

/-- C3: if the first stored instrument matching the incoming record's
isin already records a last-trade time-of-day equal to the record's
`last_trade_time`, then `apply_new_trade_data` leaves every candle field
of every stored instrument unchanged; and, for any starting state,
applying the same trade record twice changes candle state on the first
application only. -/
theorem duplicate_trade_time_preserves_candles (today : Nat)
    (mwi : MarketWatchTradeData) (insts : List Instrument) (inst : Instrument)
    (hfind : insts.find? (fun x => x.identification.isin
        == mwi.identification.isin) = some inst)
    (hdup : ∃ dt, inst.intraday_trade_candle.last_trade_datetime = some dt
        ∧ dt.time = mwi.last_trade_time) :
    (apply_new_trade_data today insts [mwi]).1.map (·.intraday_trade_candle)
      = insts.map (·.intraday_trade_candle)
  ∧ ∀ insts' : List Instrument,
      (apply_new_trade_data today
          (apply_new_trade_data today insts' [mwi]).1 [mwi]).1.map
          (·.intraday_trade_candle)
        = (apply_new_trade_data today insts' [mwi]).1.map
          (·.intraday_trade_candle) := by
  have hb : duplicateTradeTime inst.intraday_trade_candle mwi = true := by
    obtain ⟨dt, h1, h2⟩ := hdup
    simp [duplicateTradeTime, h1, h2]
  constructor
  · simpa [apply_new_trade_data] using
      applyOneTrade_candles_of_dup today mwi insts inst hfind hb
  · intro insts'
    simpa [apply_new_trade_data] using
      applyOneTrade_twice_candles today mwi insts'

/-- Candle fixture whose last trade happened at time-of-day 41400. -/
def candleDup : TradeCandle :=
  ⟨10, 11, 12, 13, 14, 9, 100, 1000, 5, some ⟨3, 41400⟩⟩

/-- Stored instrument fixture for the C3 witness. -/
def instDup : Instrument :=
  { newInstrument identF with intraday_trade_candle := candleDup }

/-- Incoming record fixture repeating last-trade time 41400. -/
def mwiDup : MarketWatchTradeData :=
  { identification := identF
    intraday_trade_candle := ⟨20, 21, 22, 23, 24, 19, 200, 2000, 6, none⟩
    last_trade_time := 41400
    orderbook := ⟨List.replicate orderbookDepth zeroRow⟩ }

/-- Witness for C3 at a concrete duplicate update. -/
theorem duplicate_trade_time_preserves_candles_witness :
    ([instDup].find? (fun x => x.identification.isin
        == mwiDup.identification.isin) = some instDup)
  ∧ (apply_new_trade_data 7 [instDup] [mwiDup]).1.map (·.intraday_trade_candle)
      = [instDup].map (·.intraday_trade_candle) :=
  ⟨by decide,
    (duplicate_trade_time_preserves_candles 7 mwiDup [instDup] instDup
      (by decide) ⟨⟨3, 41400⟩, by decide, by decide⟩).1⟩

/-- C8: for the first stored instrument whose tsetmc code matches the
incoming client-type record, `apply_new_client_type` is a field-by-field
diff-and-overwrite: if all eight client-type fields are equal the whole
state is unchanged, and if any differs the instrument's stored client
type becomes exactly the incoming one (nothing else changes). -/
theorem client_type_fieldwise_diff_update (l₁ l₂ : List Instrument)
    (inst : Instrument) (mwi : MarketWatchClientTypeData)
    (hl : ∀ y ∈ l₁, y.identification.tsetmc_code ≠ mwi.tsetmc_code)
    (hm : inst.identification.tsetmc_code = mwi.tsetmc_code) :
    (inst.client_type = mwi.client_type →
      (apply_new_client_type (l₁ ++ inst :: l₂) [mwi]).1 = l₁ ++ inst :: l₂)
  ∧ (inst.client_type ≠ mwi.client_type →
      (apply_new_client_type (l₁ ++ inst :: l₂) [mwi]).1
        = l₁ ++ { inst with client_type := mwi.client_type } :: l₂) := by
  have hupd : update_instrument_client_type inst.client_type mwi.client_type
      = mwi.client_type := rfl
  have key : ∀ l : List Instrument,
      (∀ y ∈ l, y.identification.tsetmc_code ≠ mwi.tsetmc_code) →
      applyOneClientType (l ++ inst :: l₂) mwi
        = l ++ (if inst.client_type = mwi.client_type then inst
            else { inst with client_type := mwi.client_type }) :: l₂ := by
    intro l hlow
    induction l with
    | nil =>
      by_cases hct : inst.client_type = mwi.client_type <;>
        simp [applyOneClientType, hm, hct, hupd]
    | cons y ys ih =>
      have hy : (y.identification.tsetmc_code == mwi.tsetmc_code) = false := by
        simpa using hlow y (by simp)
      have ih' := ih (fun z hz => hlow z (by simp [hz]))
      simp [applyOneClientType, hy, ih']
  constructor
  · intro hct
    have := key l₁ hl
    simp [apply_new_client_type, this, hct]
  · intro hct
    have := key l₁ hl
    simp [apply_new_client_type, this, hct]

/-- Stored instrument fixture for the C8 witness. -/
def instCT : Instrument := newInstrument identA

/-- Incoming client-type record fixture differing from the stored one. -/
def mwiCT : MarketWatchClientTypeData :=
  ⟨"111", ⟨⟨⟨1, 10⟩, ⟨2, 20⟩⟩, ⟨⟨3, 30⟩, ⟨4, 40⟩⟩⟩⟩

/-- Witness for C8 at a concrete differing record. -/
theorem client_type_fieldwise_diff_update_witness :
    (instCT.client_type ≠ mwiCT.client_type)
  ∧ (apply_new_client_type [instCT] [mwiCT]).1
      = [{ instCT with client_type := mwiCT.client_type }] :=
  ⟨by decide,
    (client_type_fieldwise_diff_update [] [] instCT mwiCT (by simp)
      (by decide)).2 (by decide)⟩

/-- C10: the four unsubscribe operations are total functions on channel
state and are idempotent; removing a connection that is not in the
targeted subscriber set raises nothing and leaves the channel exactly as
it was (the `try/except KeyError: pass` in the source). -/
theorem unsubscribe_total_idempotent (client : Nat)
    (ch : InstrumentChannel) :
    (client ∉ ch.trade_subscribers → unsubscribe_trade client ch = ch)
  ∧ (client ∉ ch.orderbook_subscribers → unsubscribe_orderbook client ch = ch)
  ∧ (client ∉ ch.clienttype_subscribers → unsubscribe_clienttype client ch = ch)
  ∧ (client ∉ ch.trade_subscribers → client ∉ ch.orderbook_subscribers →
      client ∉ ch.clienttype_subscribers → unsubscribe_all client ch = ch)
  ∧ unsubscribe_trade client (unsubscribe_trade client ch)
      = unsubscribe_trade client ch
  ∧ unsubscribe_orderbook client (unsubscribe_orderbook client ch)
      = unsubscribe_orderbook client ch
  ∧ unsubscribe_clienttype client (unsubscribe_clienttype client ch)
      = unsubscribe_clienttype client ch
  ∧ unsubscribe_all client (unsubscribe_all client ch)
      = unsubscribe_all client ch := by
  obtain ⟨i, t, o, c⟩ := ch
  refine ⟨?_, ?_, ?_, ?_, ?_, ?_, ?_, ?_⟩ <;>
    simp_all [unsubscribe_trade, unsubscribe_orderbook,
      unsubscribe_clienttype, unsubscribe_all, Finset.erase_idem,
      Finset.erase_eq_of_not_mem]

/-- Witness for C10: removing an absent connection is a no-op. -/
theorem unsubscribe_total_idempotent_witness :
    (1 ∉ (newChannel "IRO1AAAA0001").trade_subscribers)
  ∧ unsubscribe_trade 1 (newChannel "IRO1AAAA0001")
      = newChannel "IRO1AAAA0001" :=
  ⟨by decide, (unsubscribe_total_idempotent 1 (newChannel "IRO1AAAA0001")).1
    (by decide)⟩

/-- C1 (code bug): the repository's mutation entry points perform no
pusher invocation whatsoever — the trace of calls to the callbacks
installed by `set_market_realtime_data_pushers` is empty on every input —
while they do mutate observable state (third conjunct: applying a trade
record to the empty repository creates an instrument).  So a change
notification is NOT delivered when state is mutated, refuting the
claimed "if and only if". -/
theorem repository_mutation_emits_no_notification :
    (∀ (today : Nat) (insts : List Instrument)
        (tds : List MarketWatchTradeData),
        (apply_new_trade_data today insts tds).2 = [])
  ∧ (∀ (insts : List Instrument) (cts : List MarketWatchClientTypeData),
        (apply_new_client_type insts cts).2 = [])
  ∧ (apply_new_trade_data 0 [] [mwiNew]).1 ≠ [] :=
  ⟨fun _ _ _ => rfl, fun _ _ => rfl, by decide⟩

/-- Channel fixture already registered for isin `IRO1AAAA0001`. -/
def chanA : InstrumentChannel := newChannel "IRO1AAAA0001"

/-- C2 (code bug): a valid subscribe command for identity
`IRO1BBBB0001` adds the connection to the FIRST stored channel — the one
for `IRO1AAAA0001` — and creates no channel for `IRO1BBBB0001` at all:
the resulting channel list is exactly the A-channel with connection 9 in
its trade set.  The `next((x for x in self.__channels), None)` lookup
ignores the requested identity. -/
theorem subscribe_adds_to_first_channel_not_identity :
    (handle_connection_message [] [chanA] 9 "1.trade.IRO1BBBB0001").1
      = [{ chanA with trade_subscribers := {9} }]
  ∧ (handle_connection_message [] [chanA] 9 "1.trade.IRO1BBBB0001").2
      = some [] :=
  ⟨by decide, by decide⟩

/-- Stored order book fixture: five distinct rows. -/
def rowsStored : List OrderBookRow :=
  [⟨⟨1, 1, 1⟩, ⟨1, 1, 1⟩⟩, ⟨⟨2, 2, 2⟩, ⟨2, 2, 2⟩⟩, ⟨⟨3, 3, 3⟩, ⟨3, 3, 3⟩⟩,
   ⟨⟨4, 4, 4⟩, ⟨4, 4, 4⟩⟩, ⟨⟨5, 5, 5⟩, ⟨5, 5, 5⟩⟩]

/-- Incoming order book fixture: identical to `rowsStored` except at
rank 2. -/
def rowsRank2 : List OrderBookRow :=
  [⟨⟨1, 1, 1⟩, ⟨1, 1, 1⟩⟩, ⟨⟨2, 2, 2⟩, ⟨2, 2, 2⟩⟩, ⟨⟨9, 9, 9⟩, ⟨9, 9, 9⟩⟩,
   ⟨⟨4, 4, 4⟩, ⟨4, 4, 4⟩⟩, ⟨⟨5, 5, 5⟩, ⟨5, 5, 5⟩⟩]

/-- Stored instrument fixture for C4, whose last-trade time already
equals the incoming record's (so the candle path is quiescent and only
the order-book path acts). -/
def instOB : Instrument :=
  { newInstrument identA with
      intraday_trade_candle := candleDup
      orderbook := ⟨rowsStored⟩ }

/-- Incoming trade record fixture for C4: same last-trade time, order
book differing only at rank 2. -/
def mwiOB : MarketWatchTradeData :=
  { identification := identA
    intraday_trade_candle := ⟨20, 21, 22, 23, 24, 19, 200, 2000, 6, none⟩
    last_trade_time := 41400
    orderbook := ⟨rowsRank2⟩ }

/-- C4 (code bug): a snapshot differing only at rank 2 overwrites
exactly rank 2 — the resulting stored book equals the incoming book and
every other field of the instrument is unchanged — but the operation
emits NO order-book change notification at all (empty pusher trace), so
no notification carrying `{2}` exists. -/
theorem orderbook_partial_diff_without_notification :
    (apply_new_trade_data 0 [instOB] [mwiOB]).1
      = [{ instOB with orderbook := ⟨rowsRank2⟩ }]
  ∧ (apply_new_trade_data 0 [instOB] [mwiOB]).2 = [] :=
  ⟨by decide, rfl⟩

/-- Stored instrument fixture with isin `IRO1FOLD0001`. -/
def instF : Instrument := newInstrument identF

/-- C5 (code bug): a well-formed unsubscribe command
(`0.trade.IRO1FOLD0001`, action 0, valid channel, 12-character identity)
naming an identity with a stored instrument produces the truthy dict
`{"IRO1FOLD0001": None}`, so `handle_connection` DOES send a response
frame back to the issuing connection. -/
theorem unsubscribe_known_instrument_sends_response :
    response_sent
        (handle_connection_message [instF] [] 3 "0.trade.IRO1FOLD0001").2
      = true
  ∧ (handle_connection_message [instF] [] 3 "0.trade.IRO1FOLD0001").2
      = some [("IRO1FOLD0001", none)] :=
  ⟨by decide, by decide⟩

/-- C6 (code bug): the command `1.trade.` has one identity token, the
empty string, of length 0 ≠ 12 — yet it is NOT rejected: `fake_isin`
finds the empty token, Python truthiness treats it as no offender, and
the command proceeds to create a channel and subscribe connection 7 to
its trade set.  A subscriber set is thus modified by a command the claim
says must be rejected whole. -/
theorem empty_identity_token_bypasses_validation :
    (handle_connection_message [] [] 7 "1.trade.").1
      = [{ isin := "", trade_subscribers := {7}, orderbook_subscribers := ∅,
           clienttype_subscribers := ∅ }]
  ∧ (handle_connection_message [] [] 7 "1.trade.").2 = some [] :=
  ⟨by decide, by decide⟩

/-- Subscribed instrument fixture for C7. -/
def instCl : Instrument := newInstrument identA

/-- Upstream frame fixture whose first identity is not subscribed and
whose second entry is a thresholds update for the subscribed
instrument. -/
def frameBad : List (String × List (String × WireData)) :=
  [("IRB9ZZZZ9999", []), ("IRO1AAAA0001", [("thresholds", .thresholds 9 1)])]

/-- C7 (code bug): on a frame whose first identity is unknown, the bare
`next(...)` raises `StopIteration` and `process_message` aborts the
whole frame (error result) — the second, valid entry is never applied —
whereas processing that second entry alone would update the subscribed
instrument's thresholds. -/
theorem unknown_identity_aborts_frame :
    process_message [instCl] frameBad = .error "IRB9ZZZZ9999"
  ∧ process_message [instCl]
        [("IRO1AAAA0001", [("thresholds", .thresholds 9 1)])]
      = .ok [message_thresholds instCl 9 1] :=
  ⟨rfl, rfl⟩

end TsetmcPusher
